import Mathlib

/-!
Shallow embedding of the settings-store and messaging core of the
browser-extension template (src/shared/types.ts, src/shared/storage.ts,
src/shared/messaging.ts).

JavaScript objects whose properties may be absent are modelled with
`Option` fields: `none` is an absent property, `some v` a present one.
The asynchronous chrome APIs are modelled by passing the relevant part of
the environment explicitly: the stored value of the `userSettings` slot is
an `Option SettingsObj`, and fault injection flags (`readOk`, `writeOk`)
stand for the backing store throwing on `get`/`set`.
-/

/-- SubscriptionTier from types.ts: 'free' | 'pro'. -/
inductive Tier
  | free
  | pro
  deriving DecidableEq, Repr, Fintype

/-- Theme union from types.ts: 'light' | 'dark' | 'system'. -/
inductive Theme
  | light
  | dark
  | system
  deriving DecidableEq, Repr

/-- The nested notifications record, with possibly-absent properties
(a stored legacy record may lack `sound`). -/
structure NotifObj where
  enabled : Option Bool
  sound : Option Bool
  deriving DecidableEq, Repr

/-- The open-ended preferences record; its contents are opaque to the
store logic (it is only copied wholesale), so a string association list
suffices. -/
abbrev Prefs := List (String × String)

/-- A (possibly partial) UserSettings object: each top-level property may
be absent. A full record has every field `some`. -/
structure SettingsObj where
  tier : Option Tier
  enabled : Option Bool
  theme : Option Theme
  notifications : Option NotifObj
  preferences : Option Prefs
  deriving DecidableEq, Repr

/-- DEFAULT_USER_SETTINGS from types.ts. -/
def DEFAULT_USER_SETTINGS : SettingsObj :=
  ⟨some Tier.free, some true, some Theme.system,
   some ⟨some true, some false⟩, some []⟩

/-- One property of a JS object spread: in `\x7b ...base, ...override \x7d`
the override's property wins when present, otherwise the base's is kept. -/
def spreadField (base override : Option α) : Option α :=
  match override with
  | some v => some v
  | none => base

/-- The top-level (shallow) object spread `\x7b ...base, ...override \x7d`
on settings objects, field by field; nested records are copied wholesale. -/
def mergeObj (base override : SettingsObj) : SettingsObj :=
  ⟨spreadField base.tier override.tier,
   spreadField base.enabled override.enabled,
   spreadField base.theme override.theme,
   spreadField base.notifications override.notifications,
   spreadField base.preferences override.preferences⟩

/-- All five top-level properties are present. -/
def SettingsObj.topComplete (s : SettingsObj) : Bool :=
  s.tier.isSome && s.enabled.isSome && s.theme.isSome &&
    s.notifications.isSome && s.preferences.isSome

/-- Every field of the default schema is present, including the nested
notifications.enabled and notifications.sound. -/
def SettingsObj.isComplete (s : SettingsObj) : Bool :=
  s.topComplete &&
    (match s.notifications with
     | some n => n.enabled.isSome && n.sound.isSome
     | none => false)

/-- getStorageValue for the userSettings key (storage.ts): on a successful
read, `result[key] ?? defaultValue`; a thrown backing-store error is caught
and the default returned. `readOk = false` injects the thrown error. -/
def getStorageValueRun (slot : Option SettingsObj) (readOk : Bool) : SettingsObj :=
  if readOk then slot.getD DEFAULT_USER_SETTINGS else DEFAULT_USER_SETTINGS

/-- getUserSettings (storage.ts): read the slot, then
`\x7b ...DEFAULT_USER_SETTINGS, ...settings \x7d`. -/
def getUserSettingsRun (slot : Option SettingsObj) (readOk : Bool) : SettingsObj :=
  mergeObj DEFAULT_USER_SETTINGS (getStorageValueRun slot readOk)

/-- saveUserSettings (storage.ts) via setStorageValue: on success the slot
is overwritten and `true` returned; a thrown write error is caught,
the slot is unchanged and `false` returned. Returns (new slot, boolean). -/
def saveUserSettingsRun (slot : Option SettingsObj) (s : SettingsObj)
    (writeOk : Bool) : Option SettingsObj × Bool :=
  if writeOk then (some s, true) else (slot, false)

/-- updateUserSettings (storage.ts): read current settings, shallow-merge
the partial update onto them, save, and return the merged record on
success or null (`none`) on failure. Returns (new slot, returned value). -/
def updateUserSettingsRun (slot : Option SettingsObj) (readOk writeOk : Bool)
    (updates : SettingsObj) : Option SettingsObj × Option SettingsObj :=
  let current := getUserSettingsRun slot readOk
  let newSettings := mergeObj current updates
  let saved := saveUserSettingsRun slot newSettings writeOk
  (saved.1, if saved.2 then some newSettings else none)

/-- FeatureKey from types.ts: the closed five-key set. -/
inductive FeatureKey
  | basic_feature
  | advanced_analytics
  | export_data
  | custom_themes
  | priority_support
  deriving DecidableEq, Repr, Fintype

/-- FEATURE_ACCESS from types.ts: required tier per feature. -/
def FEATURE_ACCESS : FeatureKey → Tier
  | FeatureKey.basic_feature => Tier.free
  | FeatureKey.advanced_analytics => Tier.pro
  | FeatureKey.export_data => Tier.pro
  | FeatureKey.custom_themes => Tier.pro
  | FeatureKey.priority_support => Tier.pro

/-- hasFeatureAccess from types.ts: `if (requiredTier === 'free') return
true; return tier === 'pro';`. -/
def hasFeatureAccess (tier : Tier) (feature : FeatureKey) : Bool :=
  if FEATURE_ACCESS feature = Tier.free then true
  else decide (tier = Tier.pro)

/-- The runtime (untyped) view of the FEATURE_ACCESS lookup: an arbitrary
string key indexes the table; a key outside it yields undefined (`none`). -/
def lookupFeatureAccess (key : String) : Option Tier :=
  if key = "basic_feature" then some Tier.free
  else if key = "advanced_analytics" then some Tier.pro
  else if key = "export_data" then some Tier.pro
  else if key = "custom_themes" then some Tier.pro
  else if key = "priority_support" then some Tier.pro
  else none

/-- hasFeatureAccess as it executes on an arbitrary runtime key string:
`FEATURE_ACCESS[feature]` may be undefined, `undefined === 'free'` is
false, so the function falls through to `tier === 'pro'`. -/
def hasFeatureAccessRT (tier : Tier) (key : String) : Bool :=
  match lookupFeatureAccess key with
  | some Tier.free => true
  | _ => decide (tier = Tier.pro)

/-- MessageResponse from types.ts: success flag, optional data, optional
error string. -/
structure MessageResponse (α : Type) where
  success : Bool
  data : Option α
  error : Option String
  deriving DecidableEq, Repr

/-- A runtime message as the dispatcher sees it: only the `type` tag
matters to dispatch, and at runtime it can be any string. -/
structure Message where
  type : String
  deriving DecidableEq, Repr

/-- What invoking a handler on a message yields, as the listener observes
it: a plain (non-promise) response, a promise that fulfills with a
response, or a promise that rejects (`some m` a rejection with an Error
carrying message m, `none` a non-Error rejection). -/
inductive HandlerResult (α : Type)
  | sync (r : MessageResponse α)
  | promiseOk (r : MessageResponse α)
  | promiseErr (e : Option String)
  deriving DecidableEq, Repr

/-- A registered handler, abstracted over the sender argument (which the
dispatch logic only forwards). -/
abbrev Handler (α : Type) := Message → HandlerResult α

/-- The handler map: `handlers[message.type]` may be undefined. -/
abbrev MessageHandlerMap (α : Type) := String → Option (Handler α)

/-- `error instanceof Error ? error.message : 'Unknown error'`. -/
def errMessage (e : Option String) : String :=
  e.getD "Unknown error"

/-- The listener produced by createMessageListener (messaging.ts), as the
pair (the single response eventually passed to sendResponse, the boolean
the listener returns — true keeps the channel open for an async reply). -/
def createMessageListenerRun (handlers : MessageHandlerMap α)
    (message : Message) : MessageResponse α × Bool :=
  match handlers message.type with
  | some handler =>
    match handler message with
    | HandlerResult.sync r => (r, false)
    | HandlerResult.promiseOk r => (r, true)
    | HandlerResult.promiseErr e => (⟨false, none, some (errMessage e)⟩, true)
  | none => (⟨false, none, some ("Unknown message type: " ++ message.type)⟩, false)

/-- A chrome tab as broadcastToAllTabs sees it: `tab.id` may be undefined. -/
structure Tab where
  id : Option Nat
  deriving DecidableEq, Repr

/-- What the transport does for a given tab id: deliver the peer's
response, or throw (`some m` an Error with message m, `none` otherwise). -/
inductive SendOutcome (α : Type)
  | ok (r : MessageResponse α)
  | err (e : Option String)
  deriving DecidableEq, Repr

/-- sendMessageToTab (messaging.ts): the peer's response on success; a
thrown transport error is caught and turned into a failed response. -/
def sendMessageToTabRun (env : Nat → SendOutcome α) (tabId : Nat) :
    MessageResponse α :=
  match env tabId with
  | SendOutcome.ok r => r
  | SendOutcome.err e => ⟨false, none, some (errMessage e)⟩

/-- The `if (tab.id)` truthiness test: absent and 0 are falsy. -/
def truthyId (t : Tab) : Option Nat :=
  match t.id with
  | some i => if i = 0 then none else some i
  | none => none

/-- broadcastToAllTabs (messaging.ts): enumerate tabs (the query may
throw, caught to an empty result), send to every tab with a truthy id,
and record each response keyed by tab id. -/
def broadcastToAllTabsRun (query : Except Unit (List Tab))
    (env : Nat → SendOutcome α) : List (Nat × MessageResponse α) :=
  match query with
  | Except.error _ => []
  | Except.ok tabs =>
    tabs.filterMap (fun t => (truthyId t).map (fun i => (i, sendMessageToTabRun env i)))

/-- A partial update touching only the theme field. -/
def themeOnlyUpdate (t : Theme) : SettingsObj :=
  ⟨none, none, some t, none, none⟩

/-- The stored legacy record of claim C1's scope: only a nested
notifications object is present, and it lacks `sound`. -/
def partialMissingSound : SettingsObj :=
  ⟨none, none, none, some ⟨some true, none⟩, none⟩

/-- A spread whose override is fully present returns the override. -/
theorem mergeObj_topComplete_right (d s : SettingsObj)
    (h : s.topComplete = true) : mergeObj d s = s := by
  rcases s with ⟨t, e, th, n, p⟩
  cases t <;> cases e <;> cases th <;> cases n <;> cases p <;>
    simp_all [SettingsObj.topComplete, mergeObj, spreadField]

/-- C2: hasFeatureAccess is a pure total function on the closed five-key
set: it returns true unconditionally when the feature's required tier is
free, and otherwise returns true iff the tier is pro; hence pro has access
to every key and free has access exactly to the free-tier keys. -/
theorem hasFeatureAccess_totality :
    ∀ f : FeatureKey,
      hasFeatureAccess Tier.pro f = true ∧
      hasFeatureAccess Tier.free f = decide (FEATURE_ACCESS f = Tier.free) ∧
      (FEATURE_ACCESS f = Tier.free → ∀ t, hasFeatureAccess t f = true) ∧
      (FEATURE_ACCESS f ≠ Tier.free →
        ∀ t, hasFeatureAccess t f = decide (t = Tier.pro)) := by
  decide

/-- Witness for C2 at the advanced_analytics key. -/
theorem hasFeatureAccess_totality_witness :
    hasFeatureAccess Tier.free FeatureKey.advanced_analytics =
      decide (Tier.free = Tier.pro) :=
  (hasFeatureAccess_totality FeatureKey.advanced_analytics).2.2.2
    (by decide) Tier.free

/-- C8: for a key outside the static table the lookup is undefined, which
is not the string free, so access is granted exactly to the pro tier. -/
theorem hasFeatureAccessRT_unknown_key (key : String)
    (h : lookupFeatureAccess key = none) :
    hasFeatureAccessRT Tier.pro key = true ∧
    hasFeatureAccessRT Tier.free key = false ∧
    ∀ t, hasFeatureAccessRT t key = decide (t = Tier.pro) := by
  refine ⟨?_, ?_, ?_⟩
  · simp [hasFeatureAccessRT, h]
  · simp [hasFeatureAccessRT, h]
  · intro t
    cases t <;> simp [hasFeatureAccessRT, h]

/-- Witness for C8 at a concrete unknown key. -/
theorem hasFeatureAccessRT_unknown_key_witness :
    hasFeatureAccessRT Tier.pro "no_such_feature" = true ∧
    hasFeatureAccessRT Tier.free "no_such_feature" = false :=
  ⟨(hasFeatureAccessRT_unknown_key "no_such_feature" (by decide)).1,
   (hasFeatureAccessRT_unknown_key "no_such_feature" (by decide)).2.1⟩

/-- C3: a message whose tag has no registered handler is answered with
exactly a failed response carrying the unknown-message-type error, the
channel is closed immediately, and nothing is thrown (the listener is a
total function). -/
theorem createMessageListener_unknown_tag (handlers : MessageHandlerMap α)
    (message : Message) (h : handlers message.type = none) :
    createMessageListenerRun handlers message =
      (⟨false, none, some ("Unknown message type: " ++ message.type)⟩, false) := by
  simp [createMessageListenerRun, h]

/-- Witness for C3 at the tag NOT_A_REAL_TAG with an empty handler map. -/
theorem createMessageListener_unknown_tag_witness :
    createMessageListenerRun (fun _ => (none : Option (Handler Nat)))
      ⟨"NOT_A_REAL_TAG"⟩ =
      (⟨false, none, some "Unknown message type: NOT_A_REAL_TAG"⟩, false) :=
  createMessageListener_unknown_tag (fun _ => none) ⟨"NOT_A_REAL_TAG"⟩ rfl

/-- C4: a registered handler yields exactly one response delivery: a
non-promise result is sent at once and the channel closed (`false`); a
promise keeps the channel open (`true`) and its fulfillment value is
sent; a rejection is converted to a failed response with the rejection's
message instead of propagating. -/
theorem createMessageListener_registered (handlers : MessageHandlerMap α)
    (message : Message) (handler : Handler α)
    (hreg : handlers message.type = some handler) :
    (∀ r, handler message = HandlerResult.sync r →
      createMessageListenerRun handlers message = (r, false)) ∧
    (∀ r, handler message = HandlerResult.promiseOk r →
      createMessageListenerRun handlers message = (r, true)) ∧
    (∀ e, handler message = HandlerResult.promiseErr e →
      createMessageListenerRun handlers message =
        (⟨false, none, some (errMessage e)⟩, true)) := by
  refine ⟨?_, ?_, ?_⟩ <;> intro x hx <;>
    simp [createMessageListenerRun, hreg, hx]

/-- Witness for C4: a constant handler map with one synchronous handler. -/
theorem createMessageListener_registered_witness :
    createMessageListenerRun
      (fun _ => some (fun _ =>
        HandlerResult.sync (MessageResponse.mk true (some 7) none)))
      (Message.mk "GET_SETTINGS") =
      (MessageResponse.mk true (some 7) none, false) :=
  (createMessageListener_registered
    (fun _ => some (fun _ =>
      HandlerResult.sync (MessageResponse.mk true (some 7) none)))
    (Message.mk "GET_SETTINGS")
    (fun _ => HandlerResult.sync (MessageResponse.mk true (some 7) none))
    rfl).1 (MessageResponse.mk true (some 7) none) rfl

/-- C1 counterexample: writing a record whose nested notifications lacks
sound makes getUserSettings return an object missing notifications.sound,
because the merge with the defaults is a shallow top-level spread. -/
theorem getUserSettings_nested_sound_dropped :
    (getUserSettingsRun (some partialMissingSound) true).isComplete = false ∧
    (getUserSettingsRun (some partialMissingSound) true).notifications =
      some ⟨some true, none⟩ := by
  decide

/-- C1 (amended): after any partial P is written, getUserSettings returns
an object containing every top-level field of the default schema; when
nothing is stored the full defaults are returned; the nested notifications
record is taken verbatim from P when present (so a P whose notifications
record lacks sound yields a result lacking notifications.sound) and is the
complete default otherwise. -/
theorem getUserSettings_merge_topLevel (P : SettingsObj) :
    (getUserSettingsRun (some P) true).topComplete = true ∧
    getUserSettingsRun none true = DEFAULT_USER_SETTINGS ∧
    (getUserSettingsRun (some P) true).notifications =
      (match P.notifications with
       | some n => some n
       | none => some ⟨some true, some false⟩) := by
  rcases P with ⟨t, e, th, n, p⟩
  refine ⟨?_, by decide, ?_⟩
  · cases t <;> cases e <;> cases th <;> cases n <;> cases p <;>
      simp [getUserSettingsRun, getStorageValueRun, mergeObj, spreadField,
        DEFAULT_USER_SETTINGS, SettingsObj.topComplete]
  · cases n <;>
      simp [getUserSettingsRun, getStorageValueRun, mergeObj, spreadField,
        DEFAULT_USER_SETTINGS]

/-- C6: on a stored full record S, updating only the theme reads S back,
merges the single-field update onto it, persists and returns S with just
the theme replaced — tier and every other top-level field are unchanged —
and in general the returned value is the shallow merge when the save
succeeds and null when it fails. -/
theorem updateUserSettings_frame (S : SettingsObj) (hS : S.topComplete = true)
    (t : Theme) :
    updateUserSettingsRun (some S) true true (themeOnlyUpdate t) =
      (some { S with theme := some t }, some { S with theme := some t }) ∧
    (∀ U wOk, (updateUserSettingsRun (some S) true wOk U).2 =
      if wOk then some (mergeObj S U) else none) := by
  have hcur : getUserSettingsRun (some S) true = S := by
    simpa [getUserSettingsRun, getStorageValueRun] using
      mergeObj_topComplete_right DEFAULT_USER_SETTINGS S hS
  constructor
  · rcases S with ⟨a, b, c, d, e⟩
    simp only [updateUserSettingsRun, hcur, saveUserSettingsRun, if_true]
    simp [mergeObj, spreadField, themeOnlyUpdate]
  · intro U wOk
    cases wOk <;> simp [updateUserSettingsRun, hcur, saveUserSettingsRun]

/-- Witness for C6 at the default settings and the dark theme. -/
theorem updateUserSettings_frame_witness :
    updateUserSettingsRun (some DEFAULT_USER_SETTINGS) true true
        (themeOnlyUpdate Theme.dark) =
      (some { DEFAULT_USER_SETTINGS with theme := some Theme.dark },
       some { DEFAULT_USER_SETTINGS with theme := some Theme.dark }) :=
  (updateUserSettings_frame DEFAULT_USER_SETTINGS (by decide) Theme.dark).1

/-- C7: saving a record X that already contains every field of the default
schema and then reading yields X itself, because the merge with defaults
leaves a fully present record unchanged. -/
theorem save_get_roundtrip (slot : Option SettingsObj) (X : SettingsObj)
    (hX : X.isComplete = true) :
    getUserSettingsRun (saveUserSettingsRun slot X true).1 true = X := by
  have htop : X.topComplete = true := by
    simp only [SettingsObj.isComplete, Bool.and_eq_true] at hX
    exact hX.1
  simp only [saveUserSettingsRun, if_true, getUserSettingsRun,
    getStorageValueRun, Option.getD_some]
  exact mergeObj_topComplete_right _ _ htop

/-- Witness for C7 at the default settings record. -/
theorem save_get_roundtrip_witness :
    getUserSettingsRun (saveUserSettingsRun none DEFAULT_USER_SETTINGS true).1
        true = DEFAULT_USER_SETTINGS :=
  save_get_roundtrip none DEFAULT_USER_SETTINGS (by decide)

/-- C10: updateUserSettings returns null exactly when the save step fails;
a read failure is swallowed by getUserSettings, so the update is merged
onto the compiled defaults, saved over whatever was stored, and reported
as success. -/
theorem updateUserSettings_null_iff_save_fails (slot : Option SettingsObj)
    (readOk writeOk : Bool) (U : SettingsObj) :
    ((updateUserSettingsRun slot readOk writeOk U).2 = none ↔
      writeOk = false) ∧
    (readOk = false →
      updateUserSettingsRun slot readOk true U =
        (some (mergeObj DEFAULT_USER_SETTINGS U),
         some (mergeObj DEFAULT_USER_SETTINGS U))) := by
  have hdd : mergeObj DEFAULT_USER_SETTINGS DEFAULT_USER_SETTINGS =
      DEFAULT_USER_SETTINGS := by decide
  constructor
  · cases writeOk <;> simp [updateUserSettingsRun, saveUserSettingsRun]
  · intro hr
    subst hr
    simp [updateUserSettingsRun, getUserSettingsRun, getStorageValueRun,
      saveUserSettingsRun, hdd]

/-- Witness for C10: a stored pro-tier customization that cannot be read
is silently replaced by the defaults merged with the update. -/
theorem updateUserSettings_null_iff_save_fails_witness :
    updateUserSettingsRun (some ⟨some Tier.pro, none, none, none, none⟩)
        false true (themeOnlyUpdate Theme.dark) =
      (some (mergeObj DEFAULT_USER_SETTINGS (themeOnlyUpdate Theme.dark)),
       some (mergeObj DEFAULT_USER_SETTINGS (themeOnlyUpdate Theme.dark))) :=
  (updateUserSettings_null_iff_save_fails
    (some ⟨some Tier.pro, none, none, none, none⟩) false true
    (themeOnlyUpdate Theme.dark)).2 rfl

/-- A filterMap whose function hits on every element keeps the length. -/
theorem length_filterMap_of_isSome {β γ : Type} (f : β → Option γ) :
    ∀ l : List β, (∀ x ∈ l, (f x).isSome = true) →
      (l.filterMap f).length = l.length
  | [], _ => rfl
  | x :: xs, h => by
    obtain ⟨y, hy⟩ := Option.isSome_iff_exists.mp (h x (List.mem_cons_self x xs))
    rw [List.filterMap_cons, hy]
    simp only [List.length_cons]
    rw [length_filterMap_of_isSome f xs
      (fun u hu => h u (List.mem_cons_of_mem _ hu))]

/-- A truthy id comes from a present, nonzero tab id. -/
theorem truthyId_eq_some (t : Tab) (i : Nat) (h : truthyId t = some i) :
    t.id = some i ∧ i ≠ 0 := by
  rcases t with ⟨_ | j⟩
  · simp [truthyId] at h
  · simp only [truthyId] at h
    split at h
    · exact absurd h (by simp)
    · next hj =>
      injection h with h2
      subst h2
      exact ⟨rfl, hj⟩

/-- C5: broadcastToAllTabs never fails as a unit: when every enumerated
tab has a truthy id, the result has exactly one entry per tab, the entry
for an unreachable tab is the caught failed response, and the entry for a
reachable tab is that tab's own response — an erroring peer does not
prevent the others from being recorded. -/
theorem broadcastToAllTabs_partial_failure {α : Type} (tabs : List Tab)
    (env : Nat → SendOutcome α)
    (hids : ∀ t ∈ tabs, (truthyId t).isSome = true) :
    (broadcastToAllTabsRun (Except.ok tabs) env).length = tabs.length ∧
    ∀ p ∈ broadcastToAllTabsRun (Except.ok tabs) env,
      (∀ e, env p.1 = SendOutcome.err e →
        p.2 = ⟨false, none, some (errMessage e)⟩) ∧
      (∀ r, env p.1 = SendOutcome.ok r → p.2 = r) := by
  constructor
  · exact length_filterMap_of_isSome _ tabs
      (fun t ht => by simp [Option.isSome_map', hids t ht])
  · intro p hp
    simp only [broadcastToAllTabsRun, List.mem_filterMap] at hp
    obtain ⟨t, ht, hft⟩ := hp
    rw [Option.map_eq_some'] at hft
    obtain ⟨i, hti, hpi⟩ := hft
    subst hpi
    constructor
    · intro e he
      simp [sendMessageToTabRun, he]
    · intro r hr
      simp [sendMessageToTabRun, hr]

/-- Witness for C5: three peers with one unreachable yield three entries,
two carrying the peers' successful responses and one a failure. -/
theorem broadcastToAllTabs_partial_failure_witness :
    (broadcastToAllTabsRun (Except.ok [⟨some 1⟩, ⟨some 2⟩, ⟨some 3⟩])
      (fun i => if i = 2
        then SendOutcome.err (some "Could not establish connection")
        else SendOutcome.ok (⟨true, some 0, none⟩ : MessageResponse Nat))).length
      = 3 :=
  (broadcastToAllTabs_partial_failure [⟨some 1⟩, ⟨some 2⟩, ⟨some 3⟩]
    (fun i => if i = 2
      then SendOutcome.err (some "Could not establish connection")
      else SendOutcome.ok (⟨true, some 0, none⟩ : MessageResponse Nat))
    (by decide)).1

/-- C9: broadcastToAllTabs skips every tab whose id is absent or falsy —
every recorded entry's key is a present nonzero id of some enumerated tab,
and the result only depends on the transport at truthy ids, so no message
is sent for a skipped tab — and a failed tab enumeration yields the empty
mapping instead of raising. -/
theorem broadcastToAllTabs_skips_falsy {α : Type} (tabs : List Tab)
    (env env2 : Nat → SendOutcome α) :
    broadcastToAllTabsRun (Except.error ()) env =
      ([] : List (Nat × MessageResponse α)) ∧
    (∀ p ∈ broadcastToAllTabsRun (Except.ok tabs) env,
      ∃ t ∈ tabs, t.id = some p.1 ∧ p.1 ≠ 0) ∧
    ((∀ t ∈ tabs, ∀ i, truthyId t = some i → env i = env2 i) →
      broadcastToAllTabsRun (Except.ok tabs) env =
        broadcastToAllTabsRun (Except.ok tabs) env2) := by
  refine ⟨rfl, ?_, ?_⟩
  · intro p hp
    simp only [broadcastToAllTabsRun, List.mem_filterMap] at hp
    obtain ⟨t, ht, hft⟩ := hp
    rw [Option.map_eq_some'] at hft
    obtain ⟨i, hti, hpi⟩ := hft
    subst hpi
    obtain ⟨hid, hnz⟩ := truthyId_eq_some t i hti
    exact ⟨t, ht, hid, hnz⟩
  · intro hagree
    simp only [broadcastToAllTabsRun]
    apply List.filterMap_congr
    intro t ht
    cases htr : truthyId t with
    | none => simp
    | some i =>
      have he := hagree t ht i htr
      simp [sendMessageToTabRun, he]

/-- Witness for C9: a tab without id and a tab with id 0 are skipped, so
the broadcast is unchanged when the transport differs only at id 0. -/
theorem broadcastToAllTabs_skips_falsy_witness :
    broadcastToAllTabsRun (Except.ok [Tab.mk none, Tab.mk (some 0), Tab.mk (some 5)])
        (fun i => if i = 0 then SendOutcome.err none
          else SendOutcome.ok (⟨true, some 0, none⟩ : MessageResponse Nat)) =
      broadcastToAllTabsRun (Except.ok [Tab.mk none, Tab.mk (some 0), Tab.mk (some 5)])
        (fun _ => SendOutcome.ok (⟨true, some 0, none⟩ : MessageResponse Nat)) :=
  (broadcastToAllTabs_skips_falsy
    [Tab.mk none, Tab.mk (some 0), Tab.mk (some 5)]
    (fun i => if i = 0 then SendOutcome.err none
      else SendOutcome.ok (⟨true, some 0, none⟩ : MessageResponse Nat))
    (fun _ => SendOutcome.ok (⟨true, some 0, none⟩ : MessageResponse Nat))).2.2
    (by
      intro t ht i hi
      fin_cases ht
      · simp [truthyId] at hi
      · simp [truthyId] at hi
      · simp [truthyId] at hi
        subst hi
        decide)
